import Mathlib

/-!
Shallow embedding of the OCCO Basic Infrastructure Processor
(src/occo/infraprocessor/basic_infraprocessor.py).

Python dictionaries used as node descriptions and resolved node
definitions are modelled as association lists over strings; exceptions
are modelled by the `PyExc` type; each external collaborator call is a
field of an `Env` record returning `Except PyExc`; an execution
additionally produces a trace of `Event`s, each carrying the snapshot of
the mutable `instance_data` dictionary at the moment the collaborator
call is issued.
-/

namespace OCCO

/-- A Python dict with string keys and values, as used for node
descriptions and resolved node definitions. -/
abbrev Dict := List (String × String)

/-- Python dict subscript `d[k]`: first binding wins; `none` models a
`KeyError`. -/
def dlookup : Dict → String → Option String
  | [], _ => none
  | (k, v) :: rest, key => if k = key then some v else dlookup rest key

/-- The `instance_data` dictionary built up by `CreateNode.perform`.
The three fields assembled up front (basic_infraprocessor.py lines
82-86) are always present; the remaining three are added progressively
by `_perform_create` (lines 121, 122, 127). -/
structure InstanceData where
  node_id : String
  user_id : String
  node_description : Dict
  resolved_node_definition : Option Dict := none
  backend_id : Option String := none
  instance_id : Option String := none
deriving DecidableEq, Repr

/-- Python exceptions relevant to the module.  `keyboardInterrupt` is
the cancellation signal; `keyError` models a failed dict subscript;
`err` is an arbitrary other exception raised by a collaborator.
Modelled from the spec: `NodeCreationError` (from the external
`occo.exceptions.orchestration` package) carries the partial
instance data accumulated so far plus the original cause (spec section 7). -/
inductive PyExc where
  | keyboardInterrupt
  | keyError (key : String)
  | err (tag : String)
  | nodeCreationError (instance_data : InstanceData) (cause : PyExc)
deriving DecidableEq, Repr

/-- Observable events: one per external collaborator invocation, each
recording the snapshot of `instance_data` visible at that moment. -/
inductive Event where
  | resolve (snapshot : InstanceData)
  | registerNode (snapshot : InstanceData)
  | createNode (snapshot : InstanceData)
  | registerStartedNode (snapshot : InstanceData)
  | ibGet (key : String) (snapshot : InstanceData)
  | waitForNode (snapshot : InstanceData)
  | chDropNode (snapshot : InstanceData)
  | scDropNode (snapshot : InstanceData)
deriving DecidableEq, Repr

/-- Modelled from the spec: the collaborators supplied by the
infraprocessor execution context (spec section 6) — resolver, service
composer, cloud handler, store, information broker — together with the
synchronization primitive `wait_for_node` of spec section 4.3, whose
module (`occo.infraprocessor.synchronization`) is not among the sources
embedded here.  Each is an opaque call that either returns a value or
raises an exception; in particular the readiness poll lets the
cancellation signal escape rather than swallowing it (sections 4.3 and
5). -/
structure Env where
  resolve_node : String → Dict → Except PyExc Dict
  sc_register_node : Dict → Except PyExc Unit
  ch_create_node : Dict → Except PyExc String
  uds_register_started_node : String → String → InstanceData → Except PyExc Unit
  ib_get : String → InstanceData → Except PyExc String
  wait_for_node : InstanceData → Except PyExc Unit
  ch_drop_node : InstanceData → Except PyExc Unit
  sc_drop_node : InstanceData → Except PyExc Unit
  sc_create_infrastructure : String → Except PyExc String
  sc_drop_infrastructure : String → Except PyExc Unit

/-- The initial `instance_data` dict assembled at lines 82-86 from the
freshly generated uuid and the node description. -/
def initialData (fresh uid : String) (node_description : Dict) : InstanceData :=
  { node_id := fresh, user_id := uid, node_description := node_description }

/-- Embedding of `CreateNode._perform_create` (lines 103-147).  Returns
the trace of collaborator invocations, the final state of the mutable
`instance_data` dict, and `none` on success or `some e` when exception
`e` escapes.  The two `ib.get` calls are the eagerly evaluated
arguments of the `log.info` call at lines 136-142. -/
def CreateNode.perform_create (env : Env) (node_description : Dict)
    (d0 : InstanceData) : List Event × InstanceData × Option PyExc :=
  match env.resolve_node d0.node_id node_description with
  | .error e => ([.resolve d0], d0, some e)
  | .ok resolved =>
    let d1 := { d0 with resolved_node_definition := some resolved }
    match dlookup resolved "backend_id" with
    | none => ([.resolve d0], d1, some (.keyError "backend_id"))
    | some bid =>
      let d2 := { d1 with backend_id := some bid }
      match env.sc_register_node resolved with
      | .error e => ([.resolve d0, .registerNode d2], d2, some e)
      | .ok _ =>
        match env.ch_create_node resolved with
        | .error e => ([.resolve d0, .registerNode d2, .createNode d2], d2, some e)
        | .ok iid =>
          let d3 := { d2 with instance_id := some iid }
          let tr3 : List Event := [.resolve d0, .registerNode d2, .createNode d2]
          match dlookup node_description "infra_id" with
          | none => (tr3, d3, some (.keyError "infra_id"))
          | some infra =>
            match dlookup node_description "name" with
            | none => (tr3, d3, some (.keyError "name"))
            | some nodeName =>
              match env.uds_register_started_node infra nodeName d3 with
              | .error e => (tr3 ++ [.registerStartedNode d3], d3, some e)
              | .ok _ =>
                let tr4 := tr3 ++ [.registerStartedNode d3]
                match env.ib_get "node.resource.address" d3 with
                | .error e => (tr4 ++ [.ibGet "node.resource.address" d3], d3, some e)
                | .ok _ =>
                  let tr5 := tr4 ++ [.ibGet "node.resource.address" d3]
                  match env.ib_get "node.resource.ip_address" d3 with
                  | .error e => (tr5 ++ [.ibGet "node.resource.ip_address" d3], d3, some e)
                  | .ok _ =>
                    let tr6 := tr5 ++ [.ibGet "node.resource.ip_address" d3]
                    match env.wait_for_node d3 with
                    | .error e => (tr6 ++ [.waitForNode d3], d3, some e)
                    | .ok _ => (tr6 ++ [.waitForNode d3], d3, none)

/-- Embedding of `CreateNode.perform` (lines 61-101).  The fresh uuid
generated at line 83 is supplied as the `fresh` argument (the uuid
library is an external collaborator).  The initial dict assembly at
lines 82-86 happens before the `try` block, so a missing `user_id` key
raises an unwrapped `KeyError`; inside the block a
`KeyboardInterrupt` is re-raised as is, and any other exception is
wrapped into `NodeCreationError` carrying the partial instance data.
The `else` branch evaluates `node_description` subscripts `infra_id`
and `name` for the success log line, outside the `try` block. -/
def CreateNode.perform (env : Env) (fresh : String) (node_description : Dict) :
    List Event × Except PyExc InstanceData :=
  match dlookup node_description "user_id" with
  | none => ([], .error (.keyError "user_id"))
  | some uid =>
    match CreateNode.perform_create env node_description
        (initialData fresh uid node_description) with
    | (tr, _, some .keyboardInterrupt) => (tr, .error .keyboardInterrupt)
    | (tr, d, some e) => (tr, .error (.nodeCreationError d e))
    | (tr, d, none) =>
      match dlookup node_description "infra_id" with
      | none => (tr, .error (.keyError "infra_id"))
      | some _ =>
        match dlookup node_description "name" with
        | none => (tr, .error (.keyError "name"))
        | some _ => (tr, .ok d)

/-- Embedding of `DropNode.perform` (lines 162-164): cloud handler
`drop_node` first, then service composer `drop_node`; no error
handling of its own. -/
def DropNode.perform (env : Env) (instance_data : InstanceData) :
    List Event × Except PyExc Unit :=
  match env.ch_drop_node instance_data with
  | .error e => ([.chDropNode instance_data], .error e)
  | .ok _ =>
    match env.sc_drop_node instance_data with
    | .error e => ([.chDropNode instance_data, .scDropNode instance_data], .error e)
    | .ok _ => ([.chDropNode instance_data, .scDropNode instance_data], .ok ())

/-- Embedding of `CreateInfrastructure.perform` (lines 43-45). -/
def CreateInfrastructure.perform (env : Env) (infra_id : String) :
    Except PyExc String :=
  env.sc_create_infrastructure infra_id

/-- Embedding of `DropInfrastructure.perform` (lines 177-178). -/
def DropInfrastructure.perform (env : Env) (infra_id : String) :
    Except PyExc Unit :=
  env.sc_drop_infrastructure infra_id

/-! ### Observation helpers -/

/-- Names of the five protocol steps of spec section 4.2 that are
external collaborator calls (steps 2-6). -/
inductive StepName where
  | resolveStep
  | registerStep
  | createStep
  | persistStep
  | waitStep
deriving DecidableEq, Repr

/-- Which protocol step, if any, an event belongs to (the information
broker reads of the success log line are not protocol steps). -/
def stepOf : Event → Option StepName
  | .resolve _ => some .resolveStep
  | .registerNode _ => some .registerStep
  | .createNode _ => some .createStep
  | .registerStartedNode _ => some .persistStep
  | .ibGet _ _ => none
  | .waitForNode _ => some .waitStep
  | .chDropNode _ => none
  | .scDropNode _ => none

/-- The protocol steps occurring in a trace, in order. -/
def protocolSteps (tr : List Event) : List StepName :=
  tr.filterMap stepOf

/-- The order the spec prescribes for the five steps. -/
def canonicalOrder : List StepName :=
  [.resolveStep, .registerStep, .createStep, .persistStep, .waitStep]

/-- Computable test that `xs` is an initial segment of `ys`. -/
def initSeg : List StepName → List StepName → Bool
  | [], _ => true
  | _ :: _, [] => false
  | a :: as, b :: bs => a = b && initSeg as bs

/-- The instance-data snapshot an event carries. -/
def snap : Event → InstanceData
  | .resolve s => s
  | .registerNode s => s
  | .createNode s => s
  | .registerStartedNode s => s
  | .ibGet _ s => s
  | .waitForNode s => s
  | .chDropNode s => s
  | .scDropNode s => s

/-- Optional field growth: whatever is present stays present with the
same value. -/
def oleq {α : Type} [DecidableEq α] : Option α → Option α → Bool
  | none, _ => true
  | some x, o => o = some x

/-- Records grow add-only: the three initial fields never change, and
each optional field, once present, keeps its value. -/
def dataLe (d d' : InstanceData) : Bool :=
  d.node_id = d'.node_id && d.user_id = d'.user_id
    && d.node_description = d'.node_description
    && oleq d.resolved_node_definition d'.resolved_node_definition
    && oleq d.backend_id d'.backend_id
    && oleq d.instance_id d'.instance_id

/-- The instance-data records a result exposes to the caller: the
returned record on success, or the record carried by a
`NodeCreationError`. -/
def exposedData : Except PyExc InstanceData → List InstanceData
  | .ok d => [d]
  | .error (.nodeCreationError d _) => [d]
  | .error _ => []

/-- All observation points of one `CreateNode.perform` execution, in
order: the snapshot at each collaborator invocation, then whatever the
result exposes. -/
def observedData (r : List Event × Except PyExc InstanceData) : List InstanceData :=
  r.1.map snap ++ exposedData r.2

/-- Snapshots at the five protocol steps only, in order. -/
def stepSnaps (tr : List Event) : List InstanceData :=
  tr.filterMap (fun e => if (stepOf e).isSome then some (snap e) else none)

/-- Every record in the list grows into every later record (add-only,
no overwrite), computably. -/
def chainB : List InstanceData → Bool
  | [] => true
  | d :: rest => rest.all (fun d' => dataLe d d') && chainB rest

/-- Every record in the list is a strict subrecord of every later one:
add-only growth in which each later record differs from each earlier
one (the strict-superset reading of the spec). -/
def strictChainB : List InstanceData → Bool
  | [] => true
  | d :: rest => rest.all (fun d' => dataLe d d' && !(d = d' : Bool)) && strictChainB rest

/-- Instance data after the resolution step has stored both of its
fields (lines 121-122). -/
def dataAfterResolve (d0 : InstanceData) (res : Dict) (bid : String) : InstanceData :=
  { d0 with resolved_node_definition := some res, backend_id := some bid }

/-- Instance data after provisioning stored the instance id (line 127). -/
def dataAfterCreate (d0 : InstanceData) (res : Dict) (bid iid : String) : InstanceData :=
  { d0 with
    resolved_node_definition := some res,
    backend_id := some bid,
    instance_id := some iid }

/-- How `CreateNode.perform` turns the outcome of `_perform_create`
into its own result: re-raise the cancellation signal, wrap any other
exception together with the partial instance data, and on success log
(evaluating the `infra_id` and `name` subscripts) and return the data. -/
def postProcess (nd : Dict) (d : InstanceData) : Option PyExc → Except PyExc InstanceData
  | some .keyboardInterrupt => .error .keyboardInterrupt
  | some e => .error (.nodeCreationError d e)
  | none =>
    match dlookup nd "infra_id" with
    | none => .error (.keyError "infra_id")
    | some _ =>
      match dlookup nd "name" with
      | none => .error (.keyError "name")
      | some _ => .ok d

/-! ### Concrete collaborator environments -/

/-- A fully successful environment: the resolver returns a definition
with backend id b1, the cloud handler returns instance id vm-42, and
every other collaborator succeeds. -/
def env0 : Env where
  resolve_node := fun _ _ => .ok [("backend_id", "b1")]
  sc_register_node := fun _ => .ok ()
  ch_create_node := fun _ => .ok "vm-42"
  uds_register_started_node := fun _ _ _ => .ok ()
  ib_get := fun _ _ => .ok "10.0.0.1"
  wait_for_node := fun _ => .ok ()
  ch_drop_node := fun _ => .ok ()
  sc_drop_node := fun _ => .ok ()
  sc_create_infrastructure := fun i => .ok i
  sc_drop_infrastructure := fun _ => .ok ()

/-- The scenario node description of spec section 8. -/
def nd0 : Dict := [("user_id", "u1"), ("infra_id", "i1"), ("name", "n1")]

/-- Environment whose readiness wait is interrupted by the
cancellation signal. -/
def envKI : Env :=
  { env0 with wait_for_node := fun _ => .error .keyboardInterrupt }

/-- Environment whose resolver fails. -/
def envRF : Env :=
  { env0 with resolve_node := fun _ _ => .error (.err "resolution failed") }

/-- Environment whose cloud handler provisioning call fails. -/
def envCF : Env :=
  { env0 with ch_create_node := fun _ => .error (.err "boom") }

/-- Environment whose drop collaborators fail. -/
def envDF : Env :=
  { env0 with
    ch_drop_node := fun _ => .error (.err "chdrop"),
    sc_drop_node := fun _ => .error (.err "scdrop") }

/-- The trace up to and including the provisioning call. -/
def trBeforeCreate (d0 : InstanceData) (res : Dict) (bid : String) : List Event :=
  [.resolve d0, .registerNode (dataAfterResolve d0 res bid),
   .createNode (dataAfterResolve d0 res bid)]

/-- The resolved node definition `env0`'s resolver returns. -/
def res0 : Dict := [("backend_id", "b1")]

/-- Instance data of the `env0` scenario after resolution. -/
def dataMid0 : InstanceData :=
  dataAfterResolve (initialData "f" "u1" nd0) res0 "b1"

/-- Instance data of the `env0` scenario after provisioning. -/
def dataFull0 : InstanceData :=
  dataAfterCreate (initialData "f" "u1" nd0) res0 "b1" "vm-42"

/-- Full event trace of a successful `env0` scenario run. -/
def trFull0 : List Event :=
  trBeforeCreate (initialData "f" "u1" nd0) res0 "b1"
    ++ [.registerStartedNode dataFull0, .ibGet "node.resource.address" dataFull0,
        .ibGet "node.resource.ip_address" dataFull0, .waitForNode dataFull0]

/-- Node description missing the `user_id` key. -/
def ndNoUser : Dict := [("infra_id", "i1"), ("name", "n1")]

/-- Returned record of a successful scenario run with generated id f1. -/
def dataF1 : InstanceData :=
  dataAfterCreate (initialData "f1" "u1" nd0) res0 "b1" "vm-42"

/-- Returned record of a successful scenario run with generated id f2. -/
def dataF2 : InstanceData :=
  dataAfterCreate (initialData "f2" "u1" nd0) res0 "b1" "vm-42"

/-! ### Structural lemmas -/

/-- Exhaustive shape analysis of `_perform_create`: every execution
produces one of ten trace/state/outcome shapes, one per point where an
exception can escape, plus the fully successful one. -/
theorem perform_create_shape (env : Env) (nd : Dict) (d0 : InstanceData) :
    (∃ e, CreateNode.perform_create env nd d0 = ([.resolve d0], d0, some e)) ∨
    (∃ res, CreateNode.perform_create env nd d0 =
      ([.resolve d0], { d0 with resolved_node_definition := some res },
        some (.keyError "backend_id"))) ∨
    (∃ res bid e, CreateNode.perform_create env nd d0 =
      ([.resolve d0, .registerNode (dataAfterResolve d0 res bid)],
        dataAfterResolve d0 res bid, some e)) ∨
    (∃ res bid e, CreateNode.perform_create env nd d0 =
      (trBeforeCreate d0 res bid, dataAfterResolve d0 res bid, some e)) ∨
    (∃ res bid iid e, CreateNode.perform_create env nd d0 =
      (trBeforeCreate d0 res bid, dataAfterCreate d0 res bid iid, some e)) ∨
    (∃ res bid iid e, CreateNode.perform_create env nd d0 =
      (trBeforeCreate d0 res bid
          ++ [.registerStartedNode (dataAfterCreate d0 res bid iid)],
        dataAfterCreate d0 res bid iid, some e)) ∨
    (∃ res bid iid e, CreateNode.perform_create env nd d0 =
      (trBeforeCreate d0 res bid
          ++ [.registerStartedNode (dataAfterCreate d0 res bid iid),
              .ibGet "node.resource.address" (dataAfterCreate d0 res bid iid)],
        dataAfterCreate d0 res bid iid, some e)) ∨
    (∃ res bid iid e, CreateNode.perform_create env nd d0 =
      (trBeforeCreate d0 res bid
          ++ [.registerStartedNode (dataAfterCreate d0 res bid iid),
              .ibGet "node.resource.address" (dataAfterCreate d0 res bid iid),
              .ibGet "node.resource.ip_address" (dataAfterCreate d0 res bid iid)],
        dataAfterCreate d0 res bid iid, some e)) ∨
    (∃ res bid iid e, CreateNode.perform_create env nd d0 =
      (trBeforeCreate d0 res bid
          ++ [.registerStartedNode (dataAfterCreate d0 res bid iid),
              .ibGet "node.resource.address" (dataAfterCreate d0 res bid iid),
              .ibGet "node.resource.ip_address" (dataAfterCreate d0 res bid iid),
              .waitForNode (dataAfterCreate d0 res bid iid)],
        dataAfterCreate d0 res bid iid, some e)) ∨
    (∃ res bid iid, CreateNode.perform_create env nd d0 =
      (trBeforeCreate d0 res bid
          ++ [.registerStartedNode (dataAfterCreate d0 res bid iid),
              .ibGet "node.resource.address" (dataAfterCreate d0 res bid iid),
              .ibGet "node.resource.ip_address" (dataAfterCreate d0 res bid iid),
              .waitForNode (dataAfterCreate d0 res bid iid)],
        dataAfterCreate d0 res bid iid, none)) := by
  cases h1 : env.resolve_node d0.node_id nd with
  | error e => exact Or.inl ⟨e, by simp [CreateNode.perform_create, h1]⟩
  | ok res =>
  cases h2 : dlookup res "backend_id" with
  | none =>
    exact Or.inr (Or.inl ⟨res, by simp [CreateNode.perform_create, h1, h2]⟩)
  | some bid =>
  cases h3 : env.sc_register_node res with
  | error e =>
    exact Or.inr (Or.inr (Or.inl ⟨res, bid, e,
      by simp [CreateNode.perform_create, dataAfterResolve, h1, h2, h3]⟩))
  | ok u3 =>
  cases h4 : env.ch_create_node res with
  | error e =>
    exact Or.inr (Or.inr (Or.inr (Or.inl ⟨res, bid, e,
      by simp [CreateNode.perform_create, dataAfterResolve, trBeforeCreate,
        h1, h2, h3, h4]⟩)))
  | ok iid =>
  cases h5 : dlookup nd "infra_id" with
  | none =>
    exact Or.inr (Or.inr (Or.inr (Or.inr (Or.inl ⟨res, bid, iid,
      .keyError "infra_id",
      by simp [CreateNode.perform_create, dataAfterResolve, dataAfterCreate,
        trBeforeCreate, h1, h2, h3, h4, h5]⟩))))
  | some infra =>
  cases h6 : dlookup nd "name" with
  | none =>
    exact Or.inr (Or.inr (Or.inr (Or.inr (Or.inl ⟨res, bid, iid,
      .keyError "name",
      by simp [CreateNode.perform_create, dataAfterResolve, dataAfterCreate,
        trBeforeCreate, h1, h2, h3, h4, h5, h6]⟩))))
  | some nodeName =>
  cases h7 : env.uds_register_started_node infra nodeName
      (dataAfterCreate d0 res bid iid) with
  | error e =>
    exact Or.inr (Or.inr (Or.inr (Or.inr (Or.inr (Or.inl ⟨res, bid, iid, e,
      by simp_all [CreateNode.perform_create, dataAfterResolve, dataAfterCreate,
        trBeforeCreate]⟩)))))
  | ok u7 =>
  cases h8 : env.ib_get "node.resource.address" (dataAfterCreate d0 res bid iid) with
  | error e =>
    exact Or.inr (Or.inr (Or.inr (Or.inr (Or.inr (Or.inr (Or.inl
      ⟨res, bid, iid, e,
      by simp_all [CreateNode.perform_create, dataAfterResolve, dataAfterCreate,
        trBeforeCreate]⟩))))))
  | ok a8 =>
  cases h9 : env.ib_get "node.resource.ip_address" (dataAfterCreate d0 res bid iid) with
  | error e =>
    exact Or.inr (Or.inr (Or.inr (Or.inr (Or.inr (Or.inr (Or.inr (Or.inl
      ⟨res, bid, iid, e,
      by simp_all [CreateNode.perform_create, dataAfterResolve, dataAfterCreate,
        trBeforeCreate]⟩)))))))
  | ok a9 =>
  cases h10 : env.wait_for_node (dataAfterCreate d0 res bid iid) with
  | error e =>
    exact Or.inr (Or.inr (Or.inr (Or.inr (Or.inr (Or.inr (Or.inr (Or.inr (Or.inl
      ⟨res, bid, iid, e,
      by simp_all [CreateNode.perform_create, dataAfterResolve, dataAfterCreate,
        trBeforeCreate]⟩))))))))
  | ok u10 =>
    exact Or.inr (Or.inr (Or.inr (Or.inr (Or.inr (Or.inr (Or.inr (Or.inr (Or.inr
      ⟨res, bid, iid,
      by simp_all [CreateNode.perform_create, dataAfterResolve, dataAfterCreate,
        trBeforeCreate]⟩))))))))

/-- The protocol steps any `_perform_create` run issues form an initial
segment of the canonical five-step order. -/
theorem pc_order (env : Env) (nd : Dict) (d0 : InstanceData) :
    initSeg (protocolSteps (CreateNode.perform_create env nd d0).1) canonicalOrder
      = true := by
  rcases perform_create_shape env nd d0 with
    ⟨e, hr⟩ | ⟨res, hr⟩ | ⟨res, bid, e, hr⟩ | ⟨res, bid, e, hr⟩ | ⟨res, bid, iid, e, hr⟩ |
    ⟨res, bid, iid, e, hr⟩ | ⟨res, bid, iid, e, hr⟩ | ⟨res, bid, iid, e, hr⟩ |
    ⟨res, bid, iid, e, hr⟩ | ⟨res, bid, iid, hr⟩ <;>
  simp [hr, protocolSteps, stepOf, canonicalOrder, initSeg, trBeforeCreate]

/-- A successful `_perform_create` run issues all five protocol steps
in canonical order. -/
theorem pc_success (env : Env) (nd : Dict) (d0 : InstanceData)
    (h : (CreateNode.perform_create env nd d0).2.2 = none) :
    protocolSteps (CreateNode.perform_create env nd d0).1 = canonicalOrder := by
  rcases perform_create_shape env nd d0 with
    ⟨e, hr⟩ | ⟨res, hr⟩ | ⟨res, bid, e, hr⟩ | ⟨res, bid, e, hr⟩ | ⟨res, bid, iid, e, hr⟩ |
    ⟨res, bid, iid, e, hr⟩ | ⟨res, bid, iid, e, hr⟩ | ⟨res, bid, iid, e, hr⟩ |
    ⟨res, bid, iid, e, hr⟩ | ⟨res, bid, iid, hr⟩ <;>
  rw [hr] at h ⊢ <;>
  simp_all [protocolSteps, stepOf, canonicalOrder, trBeforeCreate]

/-- The run `_perform_create` never changes the three initially assembled
fields of the instance data. -/
theorem pc_base_fields (env : Env) (nd : Dict) (d0 : InstanceData) :
    (CreateNode.perform_create env nd d0).2.1.node_id = d0.node_id ∧
    (CreateNode.perform_create env nd d0).2.1.user_id = d0.user_id ∧
    (CreateNode.perform_create env nd d0).2.1.node_description
      = d0.node_description := by
  rcases perform_create_shape env nd d0 with
    ⟨e, hr⟩ | ⟨res, hr⟩ | ⟨res, bid, e, hr⟩ | ⟨res, bid, e, hr⟩ | ⟨res, bid, iid, e, hr⟩ |
    ⟨res, bid, iid, e, hr⟩ | ⟨res, bid, iid, e, hr⟩ | ⟨res, bid, iid, e, hr⟩ |
    ⟨res, bid, iid, e, hr⟩ | ⟨res, bid, iid, hr⟩ <;>
  simp [hr, dataAfterResolve, dataAfterCreate]

/-- Backend-id presence during a run started from the initial data: the
snapshot the resolver sees has no backend id; every later snapshot has
one; the final data has one exactly when the trace shows the service
composer registration step, i.e. when resolution completed. -/
theorem pc_backend (env : Env) (nd : Dict) (fresh uid : String) :
    (∀ e ∈ (CreateNode.perform_create env nd (initialData fresh uid nd)).1,
      stepOf e = some .resolveStep → (snap e).backend_id = none) ∧
    (∀ e ∈ (CreateNode.perform_create env nd (initialData fresh uid nd)).1,
      stepOf e ≠ some .resolveStep → (snap e).backend_id.isSome = true) ∧
    ((CreateNode.perform_create env nd (initialData fresh uid nd)).2.2 = none →
      (CreateNode.perform_create env nd (initialData fresh uid nd)).2.1.backend_id.isSome
        = true) ∧
    (∀ e', (CreateNode.perform_create env nd (initialData fresh uid nd)).2.2 = some e' →
      ((CreateNode.perform_create env nd (initialData fresh uid nd)).2.1.backend_id.isSome
          = true ↔
        StepName.registerStep ∈
          protocolSteps (CreateNode.perform_create env nd (initialData fresh uid nd)).1)) := by
  rcases perform_create_shape env nd (initialData fresh uid nd) with
    ⟨e, hr⟩ | ⟨res, hr⟩ | ⟨res, bid, e, hr⟩ | ⟨res, bid, e, hr⟩ | ⟨res, bid, iid, e, hr⟩ |
    ⟨res, bid, iid, e, hr⟩ | ⟨res, bid, iid, e, hr⟩ | ⟨res, bid, iid, e, hr⟩ |
    ⟨res, bid, iid, e, hr⟩ | ⟨res, bid, iid, hr⟩ <;>
  rw [hr] <;>
  simp [snap, stepOf, protocolSteps, canonicalOrder, trBeforeCreate,
    dataAfterResolve, dataAfterCreate, initialData]

/-- Observation-point snapshots and the final record of any run started
from the initial data form an add-only chain. -/
theorem pc_chain (env : Env) (nd : Dict) (fresh uid : String) :
    chainB ((CreateNode.perform_create env nd (initialData fresh uid nd)).1.map snap
      ++ [(CreateNode.perform_create env nd (initialData fresh uid nd)).2.1])
      = true := by
  rcases perform_create_shape env nd (initialData fresh uid nd) with
    ⟨e, hr⟩ | ⟨res, hr⟩ | ⟨res, bid, e, hr⟩ | ⟨res, bid, e, hr⟩ | ⟨res, bid, iid, e, hr⟩ |
    ⟨res, bid, iid, e, hr⟩ | ⟨res, bid, iid, e, hr⟩ | ⟨res, bid, iid, e, hr⟩ |
    ⟨res, bid, iid, e, hr⟩ | ⟨res, bid, iid, hr⟩ <;>
  rw [hr] <;>
  simp [snap, chainB, dataLe, oleq, dataAfterResolve, dataAfterCreate,
    trBeforeCreate, initialData]

/-- A successful run persisted exactly its final record, and that
record has all three progressively added fields. -/
theorem pc_persist (env : Env) (nd : Dict) (d0 : InstanceData)
    (h : (CreateNode.perform_create env nd d0).2.2 = none) :
    Event.registerStartedNode (CreateNode.perform_create env nd d0).2.1 ∈
        (CreateNode.perform_create env nd d0).1 ∧
    (CreateNode.perform_create env nd d0).2.1.resolved_node_definition.isSome = true ∧
    (CreateNode.perform_create env nd d0).2.1.backend_id.isSome = true ∧
    (CreateNode.perform_create env nd d0).2.1.instance_id.isSome = true := by
  rcases perform_create_shape env nd d0 with
    ⟨e, hr⟩ | ⟨res, hr⟩ | ⟨res, bid, e, hr⟩ | ⟨res, bid, e, hr⟩ | ⟨res, bid, iid, e, hr⟩ |
    ⟨res, bid, iid, e, hr⟩ | ⟨res, bid, iid, e, hr⟩ | ⟨res, bid, iid, e, hr⟩ |
    ⟨res, bid, iid, e, hr⟩ | ⟨res, bid, iid, hr⟩ <;>
  rw [hr] at h ⊢ <;>
  simp_all [trBeforeCreate, dataAfterResolve, dataAfterCreate]

/-- On the cancellation signal `postProcess` re-raises it unmodified. -/
theorem postProcess_cancel (nd : Dict) (d : InstanceData) :
    postProcess nd d (some .keyboardInterrupt) = .error .keyboardInterrupt := rfl

/-- Every non-cancellation exception is wrapped by `postProcess` together with
the partial instance data. -/
theorem postProcess_some_ne (nd : Dict) (d : InstanceData) (e : PyExc)
    (he : e ≠ .keyboardInterrupt) :
    postProcess nd d (some e) = .error (.nodeCreationError d e) := by
  cases e with
  | keyboardInterrupt => exact absurd rfl he
  | keyError k => rfl
  | err t => rfl
  | nodeCreationError a b => rfl

/-- Only when `_perform_create` succeeded does `postProcess` return a value,
succeeded, and then returns exactly its final record. -/
theorem postProcess_ok (nd : Dict) (d : InstanceData) (res : Option PyExc)
    (d' : InstanceData) (h : postProcess nd d res = .ok d') :
    res = none ∧ d' = d := by
  cases res with
  | none =>
    refine ⟨rfl, ?_⟩
    simp only [postProcess] at h
    split at h
    · exact absurd h (by simp)
    · split at h
      · exact absurd h (by simp)
      · injection h with h
        exact h.symm
  | some e => cases e <;> simp [postProcess] at h

/-- A `NodeCreationError` result of `postProcess` carries exactly the
final record, the original cause, and only for non-cancellation
causes. -/
theorem postProcess_wrap_shape (nd : Dict) (d : InstanceData) (res : Option PyExc)
    (dd : InstanceData) (c : PyExc)
    (h : postProcess nd d res = .error (.nodeCreationError dd c)) :
    dd = d ∧ res = some c ∧ c ≠ .keyboardInterrupt := by
  cases res with
  | none =>
    simp only [postProcess] at h
    split at h
    · exact absurd h (by simp)
    · split at h
      · exact absurd h (by simp)
      · exact absurd h (by simp)
  | some e =>
    cases e with
    | keyboardInterrupt => exact absurd h (by simp [postProcess])
    | keyError k =>
      simp only [postProcess] at h
      injection h with h
      cases h
      exact ⟨rfl, rfl, by simp⟩
    | err t =>
      simp only [postProcess] at h
      injection h with h
      cases h
      exact ⟨rfl, rfl, by simp⟩
    | nodeCreationError a b =>
      simp only [postProcess] at h
      injection h with h
      cases h
      exact ⟨rfl, rfl, by simp⟩

/-- Decomposition: `CreateNode.perform` is `_perform_create` on the initial data,
followed by `postProcess`, whenever the `user_id` subscript succeeds. -/
theorem perform_eq (env : Env) (fresh : String) (nd : Dict) (uid : String)
    (h : dlookup nd "user_id" = some uid) :
    CreateNode.perform env fresh nd =
      ((CreateNode.perform_create env nd (initialData fresh uid nd)).1,
        postProcess nd
          (CreateNode.perform_create env nd (initialData fresh uid nd)).2.1
          (CreateNode.perform_create env nd (initialData fresh uid nd)).2.2) := by
  rcases hr : CreateNode.perform_create env nd (initialData fresh uid nd)
    with ⟨tr, d, res⟩
  cases res with
  | none =>
    simp only [CreateNode.perform, postProcess, h, hr]
    cases dlookup nd "infra_id" <;> cases dlookup nd "name" <;> rfl
  | some e => cases e <;> simp [CreateNode.perform, postProcess, h, hr]

/-- A successful `CreateNode.perform` returns a record whose `node_id`
is exactly the freshly generated identifier assigned at the start. -/
theorem perform_ok_node_id (env : Env) (fresh : String) (nd : Dict)
    (d : InstanceData) (h : (CreateNode.perform env fresh nd).2 = .ok d) :
    d.node_id = fresh := by
  cases hu : dlookup nd "user_id" with
  | none => simp [CreateNode.perform, hu] at h
  | some uid =>
    rw [perform_eq env fresh nd uid hu] at h
    rcases postProcess_ok nd _ _ d h with ⟨hres, rfl⟩
    simpa [initialData] using
      (pc_base_fields env nd (initialData fresh uid nd)).1

/-- Add-only chains are preserved by dropping the last element. -/
theorem chainB_append_left (l : List InstanceData) (d : InstanceData)
    (h : chainB (l ++ [d]) = true) : chainB l = true := by
  induction l with
  | nil => rfl
  | cons x xs ih =>
    simp only [List.cons_append, chainB, Bool.and_eq_true, List.all_append,
      List.all_eq_true] at h ⊢
    exact ⟨fun y hy => h.1 y (List.mem_append_left _ hy), ih h.2⟩

/-! ### Claims -/

/-- C1: within every execution of `CreateNode.perform` the five
protocol steps — resolve, service-composer `register_node`,
cloud-handler `create_node`, store `register_started_node`, readiness
wait — occur as an initial segment of the canonical order, so no step
is invoked before the previous one returned successfully and a step
failure prevents every later step; on success all five occur. -/
theorem C1_protocol_step_order (env : Env) (fresh : String) (nd : Dict) :
    initSeg (protocolSteps (CreateNode.perform env fresh nd).1) canonicalOrder
        = true ∧
    (∀ d, (CreateNode.perform env fresh nd).2 = .ok d →
      protocolSteps (CreateNode.perform env fresh nd).1 = canonicalOrder) := by
  cases hu : dlookup nd "user_id" with
  | none => simp [CreateNode.perform, hu, protocolSteps, initSeg]
  | some uid =>
    rw [perform_eq env fresh nd uid hu]
    refine ⟨pc_order env nd (initialData fresh uid nd), ?_⟩
    intro d hd
    rcases postProcess_ok nd _ _ d hd with ⟨hres, rfl⟩
    exact pc_success env nd _ hres

/-- Witness for C1 at the fully successful scenario environment. -/
theorem C1_witness :
    initSeg (protocolSteps (CreateNode.perform env0 "f" nd0).1) canonicalOrder
        = true ∧
    protocolSteps (CreateNode.perform env0 "f" nd0).1 = canonicalOrder :=
  ⟨(C1_protocol_step_order env0 "f" nd0).1,
   (C1_protocol_step_order env0 "f" nd0).2 dataFull0 (by rfl)⟩

/-- C2: every non-cancellation failure inside the CreateNode protocol
is raised by `perform` as a `NodeCreationError` carrying the partial
instance data accumulated so far together with the original cause, and
the other three commands propagate collaborator failures raw, so this
wrapping occurs for CreateNode only. -/
theorem C2_wrapping_only_in_create_node :
    (∀ (env : Env) (fresh : String) (nd : Dict) (uid : String) (tr : List Event)
        (d : InstanceData) (e : PyExc),
      dlookup nd "user_id" = some uid →
      CreateNode.perform_create env nd (initialData fresh uid nd) = (tr, d, some e) →
      e ≠ .keyboardInterrupt →
      (CreateNode.perform env fresh nd).2 = .error (.nodeCreationError d e)) ∧
    (∀ (env : Env) (d : InstanceData) (e : PyExc),
      (DropNode.perform env d).2 = .error e →
      env.ch_drop_node d = .error e ∨ env.sc_drop_node d = .error e) ∧
    (∀ (env : Env) (i : String) (e : PyExc),
      CreateInfrastructure.perform env i = .error e →
      env.sc_create_infrastructure i = .error e) ∧
    (∀ (env : Env) (i : String) (e : PyExc),
      DropInfrastructure.perform env i = .error e →
      env.sc_drop_infrastructure i = .error e) := by
  refine ⟨?_, ?_, ?_, ?_⟩
  · intro env fresh nd uid tr d e hu hc he
    rw [perform_eq env fresh nd uid hu, hc]
    exact postProcess_some_ne nd d e he
  · intro env d e h
    unfold DropNode.perform at h
    cases hch : env.ch_drop_node d with
    | error e1 => rw [hch] at h; simp at h; exact Or.inl (by rw [h])
    | ok u =>
      rw [hch] at h
      cases hsc : env.sc_drop_node d with
      | error e2 => rw [hsc] at h; simp at h; exact Or.inr (by rw [h])
      | ok u2 => rw [hsc] at h; simp at h
  · intro env i e h
    exact h
  · intro env i e h
    exact h

/-- Witness for C2 at an environment whose provisioning call fails. -/
theorem C2_witness :
    (CreateNode.perform envCF "f" nd0).2 =
      .error (.nodeCreationError dataMid0 (.err "boom")) :=
  C2_wrapping_only_in_create_node.1 envCF "f" nd0 "u1"
    (trBeforeCreate (initialData "f" "u1" nd0) res0 "b1") dataMid0 (.err "boom")
    rfl (by rfl) (by simp)

/-- C3: whenever the cancellation signal escapes the protocol body —
no matter at which point it was raised — `CreateNode.perform` re-raises
it unmodified, never as a `NodeCreationError`. -/
theorem C3_cancellation_unwrapped (env : Env) (fresh : String) (nd : Dict)
    (uid : String) (tr : List Event) (d : InstanceData)
    (hu : dlookup nd "user_id" = some uid)
    (hc : CreateNode.perform_create env nd (initialData fresh uid nd) =
      (tr, d, some .keyboardInterrupt)) :
    CreateNode.perform env fresh nd = (tr, .error .keyboardInterrupt) := by
  rw [perform_eq env fresh nd uid hu, hc]
  rfl

/-- Witness for C3: the cancellation signal raised during the readiness
poll propagates out of `perform` unwrapped. -/
theorem C3_witness :
    CreateNode.perform envKI "f" nd0 = (trFull0, .error .keyboardInterrupt) :=
  C3_cancellation_unwrapped envKI "f" nd0 "u1" trFull0 dataFull0 rfl (by rfl)

/-- C4: if resolution fails the wrapped error carries instance data
with neither `resolved_node_definition` nor `instance_id`; if
provisioning fails after successful resolution and registration it
carries `resolved_node_definition` and `backend_id` but no
`instance_id`. -/
theorem C4_partial_data_in_error :
    (∀ (env : Env) (fresh : String) (nd : Dict) (uid : String) (e : PyExc),
      dlookup nd "user_id" = some uid →
      env.resolve_node fresh nd = .error e →
      e ≠ .keyboardInterrupt →
      (CreateNode.perform env fresh nd).2 =
          .error (.nodeCreationError (initialData fresh uid nd) e) ∧
      (initialData fresh uid nd).resolved_node_definition = none ∧
      (initialData fresh uid nd).instance_id = none) ∧
    (∀ (env : Env) (fresh : String) (nd : Dict) (uid : String) (res : Dict)
        (bid : String) (e : PyExc),
      dlookup nd "user_id" = some uid →
      env.resolve_node fresh nd = .ok res →
      dlookup res "backend_id" = some bid →
      env.sc_register_node res = .ok () →
      env.ch_create_node res = .error e →
      e ≠ .keyboardInterrupt →
      (CreateNode.perform env fresh nd).2 =
          .error (.nodeCreationError
            (dataAfterResolve (initialData fresh uid nd) res bid) e) ∧
      (dataAfterResolve (initialData fresh uid nd) res bid).resolved_node_definition
          = some res ∧
      (dataAfterResolve (initialData fresh uid nd) res bid).backend_id = some bid ∧
      (dataAfterResolve (initialData fresh uid nd) res bid).instance_id = none) := by
  constructor
  · intro env fresh nd uid e hu hres he
    have hc : CreateNode.perform_create env nd (initialData fresh uid nd) =
        ([.resolve (initialData fresh uid nd)], initialData fresh uid nd, some e) := by
      simp [CreateNode.perform_create, initialData, hres]
    refine ⟨?_, rfl, rfl⟩
    rw [perform_eq env fresh nd uid hu, hc]
    exact postProcess_some_ne nd _ e he
  · intro env fresh nd uid res bid e hu hres hbid hreg hcre he
    have hc : CreateNode.perform_create env nd (initialData fresh uid nd) =
        (trBeforeCreate (initialData fresh uid nd) res bid,
          dataAfterResolve (initialData fresh uid nd) res bid, some e) := by
      simp [CreateNode.perform_create, initialData, trBeforeCreate, dataAfterResolve,
        hres, hbid, hreg, hcre]
    refine ⟨?_, rfl, rfl, ?_⟩
    · rw [perform_eq env fresh nd uid hu, hc]
      exact postProcess_some_ne nd _ e he
    · simp [dataAfterResolve, initialData]

/-- Witness for C4: a failing resolver and a failing cloud handler at
the scenario inputs. -/
theorem C4_witness :
    (CreateNode.perform envRF "f" nd0).2 =
      .error (.nodeCreationError (initialData "f" "u1" nd0)
        (.err "resolution failed")) ∧
    (CreateNode.perform envCF "f" nd0).2 =
      .error (.nodeCreationError dataMid0 (.err "boom")) :=
  ⟨(C4_partial_data_in_error.1 envRF "f" nd0 "u1" (.err "resolution failed")
      rfl rfl (by simp)).1,
   (C4_partial_data_in_error.2 envCF "f" nd0 "u1" res0 "b1" (.err "boom")
      rfl rfl rfl rfl rfl (by simp)).1⟩

/-- C5: at every observation point of a CreateNode execution and in
every instance data it exposes, `backend_id` is present exactly when
the resolution step has completed successfully: the resolver call sees
no `backend_id`, every later collaborator call sees one, a returned
record has one, and a record carried by a `NodeCreationError` has one
precisely when the trace reached the registration step, the first step
after resolution commits. -/
theorem C5_backend_id_iff_resolved (env : Env) (fresh : String) (nd : Dict) :
    (∀ e ∈ (CreateNode.perform env fresh nd).1,
      stepOf e = some .resolveStep → (snap e).backend_id = none) ∧
    (∀ e ∈ (CreateNode.perform env fresh nd).1,
      stepOf e ≠ some .resolveStep → (snap e).backend_id.isSome = true) ∧
    (∀ d, (CreateNode.perform env fresh nd).2 = .ok d →
      d.backend_id.isSome = true) ∧
    (∀ d c, (CreateNode.perform env fresh nd).2 = .error (.nodeCreationError d c) →
      (d.backend_id.isSome = true ↔
        StepName.registerStep ∈ protocolSteps (CreateNode.perform env fresh nd).1)) := by
  cases hu : dlookup nd "user_id" with
  | none => simp [CreateNode.perform, hu]
  | some uid =>
    rw [perform_eq env fresh nd uid hu]
    have hb := pc_backend env nd fresh uid
    refine ⟨hb.1, hb.2.1, ?_, ?_⟩
    · intro d hd
      rcases postProcess_ok nd _ _ d hd with ⟨hres, rfl⟩
      exact hb.2.2.1 hres
    · intro d c hdc
      rcases postProcess_wrap_shape nd _ _ d c hdc with ⟨rfl, hres, _⟩
      exact hb.2.2.2 c hres

/-- Witness for C5: the returned record of the successful scenario run
carries a backend id. -/
theorem C5_witness : dataFull0.backend_id.isSome = true :=
  (C5_backend_id_iff_resolved env0 "f" nd0).2.2.1 dataFull0 (by rfl)

/-- C6: `DropNode.perform` always calls the cloud handler's
`drop_node` first and the service composer's second, and propagates
any collaborator failure raw, with no wrapping. -/
theorem C6_drop_order_raw_errors (env : Env) (d : InstanceData) :
    (∀ e, env.ch_drop_node d = .error e →
      DropNode.perform env d = ([.chDropNode d], .error e)) ∧
    (∀ e, env.ch_drop_node d = .ok () → env.sc_drop_node d = .error e →
      DropNode.perform env d = ([.chDropNode d, .scDropNode d], .error e)) ∧
    (env.ch_drop_node d = .ok () → env.sc_drop_node d = .ok () →
      DropNode.perform env d = ([.chDropNode d, .scDropNode d], .ok ())) := by
  refine ⟨?_, ?_, ?_⟩
  · intro e h
    simp [DropNode.perform, h]
  · intro e h1 h2
    simp [DropNode.perform, h1, h2]
  · intro h1 h2
    simp [DropNode.perform, h1, h2]

/-- Witness for C6: failing and succeeding drop collaborators at the
scenario instance data. -/
theorem C6_witness :
    DropNode.perform envDF dataFull0 =
      ([.chDropNode dataFull0], .error (.err "chdrop")) ∧
    DropNode.perform env0 dataFull0 =
      ([.chDropNode dataFull0, .scDropNode dataFull0], .ok ()) :=
  ⟨(C6_drop_order_raw_errors envDF dataFull0).1 (.err "chdrop") rfl,
   (C6_drop_order_raw_errors env0 dataFull0).2.2 rfl rfl⟩

/-- C7: the freshly generated identifier is assigned as `node_id` at
the start of creation and returned unchanged, so two CreateNode
invocations whose generated identifiers are distinct and non-empty
return instance data with non-empty, distinct `node_id` fields (the
`uuid4` collaborator practically guarantees distinct non-empty
identifiers). -/
theorem C7_node_id_fresh_and_distinct (env₁ env₂ : Env) (f₁ f₂ : String)
    (nd₁ nd₂ : Dict) (d₁ d₂ : InstanceData)
    (h₁ : (CreateNode.perform env₁ f₁ nd₁).2 = .ok d₁)
    (h₂ : (CreateNode.perform env₂ f₂ nd₂).2 = .ok d₂)
    (hne : f₁ ≠ f₂) (hn₁ : f₁ ≠ "") (hn₂ : f₂ ≠ "") :
    d₁.node_id = f₁ ∧ d₂.node_id = f₂ ∧ d₁.node_id ≠ d₂.node_id ∧
    d₁.node_id ≠ "" ∧ d₂.node_id ≠ "" := by
  have g₁ : d₁.node_id = f₁ := perform_ok_node_id env₁ f₁ nd₁ d₁ h₁
  have g₂ : d₂.node_id = f₂ := perform_ok_node_id env₂ f₂ nd₂ d₂ h₂
  rw [g₁, g₂]
  exact ⟨rfl, rfl, hne, hn₁, hn₂⟩

/-- Witness for C7: two scenario runs with distinct generated
identifiers. -/
theorem C7_witness :
    dataF1.node_id = "f1" ∧ dataF2.node_id = "f2" ∧
    dataF1.node_id ≠ dataF2.node_id ∧ dataF1.node_id ≠ "" ∧
    dataF2.node_id ≠ "" :=
  C7_node_id_fresh_and_distinct env0 env0 "f1" "f2" nd0 nd0 dataF1 dataF2
    (by rfl) (by rfl) (by simp) (by simp) (by simp)

/-- C8 counterexample: in the fully successful scenario run the record
visible at the cloud-handler `create_node` step equals the record
visible at the service-composer `register_node` step (and the record at
the readiness wait equals the one at the persist step), so the
snapshots at the five protocol steps do not strictly grow: the claim
that each later step sees a strict superset of every earlier step is
false. -/
theorem C8_strict_claim_counterexample :
    strictChainB (stepSnaps (CreateNode.perform env0 "f" nd0).1) = false ∧
    stepSnaps (CreateNode.perform env0 "f" nd0).1 =
      [initialData "f" "u1" nd0, dataMid0, dataMid0, dataFull0, dataFull0] :=
  ⟨rfl, rfl⟩

/-- C8 (amended): throughout a CreateNode execution instance-data
fields are only ever added, never removed and never overwritten — the
record visible at each later observation point is a (not necessarily
strict) superset of the record visible at every earlier point, and the
same holds for every record the execution exposes. -/
theorem C8_add_only_growth (env : Env) (fresh : String) (nd : Dict) :
    chainB (observedData (CreateNode.perform env fresh nd)) = true := by
  cases hu : dlookup nd "user_id" with
  | none => simp [CreateNode.perform, hu, observedData, exposedData, chainB]
  | some uid =>
    rw [perform_eq env fresh nd uid hu]
    have hch := pc_chain env nd fresh uid
    simp only [observedData]
    cases hres : (CreateNode.perform_create env nd (initialData fresh uid nd)).2.2 with
    | none =>
      simp only [postProcess]
      cases dlookup nd "infra_id" with
      | none => simpa [exposedData] using chainB_append_left _ _ hch
      | some v =>
        cases dlookup nd "name" with
        | none => simpa [exposedData] using chainB_append_left _ _ hch
        | some w => simpa [exposedData] using hch
    | some e =>
      cases e <;> simp [postProcess, exposedData] <;>
        first
        | exact chainB_append_left _ _ hch
        | exact hch

/-- C9: a node description without a `user_id` key makes
`CreateNode.perform` raise the lookup `KeyError` unwrapped, with no
collaborator invoked (empty trace). -/
theorem C9_missing_user_id_unwrapped (env : Env) (fresh : String) (nd : Dict)
    (h : dlookup nd "user_id" = none) :
    CreateNode.perform env fresh nd = ([], .error (.keyError "user_id")) := by
  simp [CreateNode.perform, h]

/-- Witness for C9 at a concrete description lacking `user_id`. -/
theorem C9_witness :
    CreateNode.perform env0 "f" ndNoUser = ([], .error (.keyError "user_id")) :=
  C9_missing_user_id_unwrapped env0 "f" ndNoUser rfl

/-- C10: the record a successful `CreateNode.perform` returns is
exactly the one passed to the store's `register_started_node`, and all
six of its fields are populated (the record type has exactly the six
fields `node_id`, `user_id`, `node_description`,
`resolved_node_definition`, `backend_id`, `instance_id`, the first
three always present and the last three present as `some`). -/
theorem C10_returned_equals_persisted (env : Env) (fresh : String) (nd : Dict)
    (d : InstanceData) (h : (CreateNode.perform env fresh nd).2 = .ok d) :
    Event.registerStartedNode d ∈ (CreateNode.perform env fresh nd).1 ∧
    d.resolved_node_definition.isSome = true ∧
    d.backend_id.isSome = true ∧
    d.instance_id.isSome = true := by
  cases hu : dlookup nd "user_id" with
  | none => simp [CreateNode.perform, hu] at h
  | some uid =>
    rw [perform_eq env fresh nd uid hu] at h ⊢
    rcases postProcess_ok nd _ _ d h with ⟨hres, rfl⟩
    exact pc_persist env nd _ hres

/-- Witness for C10 at the successful scenario run. -/
theorem C10_witness :
    Event.registerStartedNode dataFull0 ∈ (CreateNode.perform env0 "f" nd0).1 ∧
    dataFull0.resolved_node_definition.isSome = true ∧
    dataFull0.backend_id.isSome = true ∧
    dataFull0.instance_id.isSome = true :=
  C10_returned_equals_persisted env0 "f" nd0 dataFull0 (by rfl)

end OCCO
